import Mathlib

/- Verification development for the Meteodelesillesmapas repository.

   The repository contains two sibling Python programs,
   `generar_mapa_baleares.py` and `generar_minmax_baleares.py`, which render
   weather maps of the Balearic Islands.  This file gives a shallow embedding
   of the parts of both programs that the verified properties are about:

   * the Web-Mercator projection helpers and the `RasterTransform` record
     (real numbers stand for Python floats; Python `int()` truncation is
     modelled by `pyInt`, Python float floor-division by `Int.floor`);
   * the two base-map acquisition paths (`build_base_map_static` and
     `build_base_map_tiles`); HTTP responses are modelled as `Except Unit`
     values supplied by the environment, and PIL images are modelled by
     their pixel dimensions (pixel contents play no role in any property);
   * the piecewise-linear colour gradient `temp_to_color` (rational
     arithmetic, fully executable);
   * the greedy anti-overlap label placement of both programs
     (integer pixel arithmetic, fully executable);
   * the per-item error recovery of `download_tile`, `fetch_openmeteo` and
     `fetch_minmax`.
-/

namespace Meteo

/-- Python `int()` applied to a float truncates toward zero. -/
def pyInt {α : Type} [LinearOrderedField α] [FloorRing α] (x : α) : ℤ :=
  if 0 ≤ x then ⌊x⌋ else ⌈x⌉

/-- An RGB colour triple (Python tuples of ints). -/
abbrev RGB : Type := ℤ × ℤ × ℤ

/-- A colour calibration stop: a temperature together with an RGB triple. -/
abbrev Stop : Type := ℚ × RGB

/-- Python `round` on a rational: nearest integer, ties to even. -/
def pyRound (y : ℚ) : ℤ :=
  let f : ℤ := ⌊y⌋
  let r : ℚ := y - (f : ℚ)
  if r < 1/2 then f
  else if 1/2 < r then f + 1
  else if f % 2 = 0 then f else f + 1

/-- Python `round(x, 1)`: round to one decimal digit. -/
def round1 (x : ℚ) : ℚ := (pyRound (x * 10) : ℚ) / 10

/-- A pixel-space axis-aligned rectangle `(left, top, right, bottom)`, as
    accumulated in `placed_boxes` / `placed` by the two programs. -/
structure Box where
  left : ℤ
  top : ℤ
  right : ℤ
  bottom : ℤ
deriving DecidableEq

/-- The axis-aligned disjointness test both programs use:
    `candidate[2] < bx[0] or candidate[0] > bx[2] or candidate[3] < bx[1]
     or candidate[1] > bx[3]`. -/
def boxes_disjoint (c b : Box) : Bool :=
  decide (c.right < b.left) || decide (c.left > b.right) ||
  decide (c.bottom < b.top) || decide (c.top > b.bottom)

/-- The overlap loop of both programs: scan all previously accepted boxes and
    flag an overlap when any of them is not disjoint from the candidate. -/
def overlaps_any (placed : List Box) (cand : Box) : Bool :=
  placed.any (fun bx => !(boxes_disjoint cand bx))

/-- A drawing primitive issued to `ImageDraw` (geometry only; colours and
    styling do not matter to the verified properties, except the fill of the
    anchor ellipse which records the gradient colour). -/
inductive DrawOp where
  | ellipse (x0 y0 x1 y1 : ℤ) (fill : RGB)
  | rectangle (x0 y0 x1 y1 : ℤ)
  | line (x0 y0 x1 y1 : ℤ)
  | text (x y : ℤ) (s : String)
deriving DecidableEq

/-- A PIL image, modelled by its pixel dimensions (the verified properties
    only concern image sizes, never pixel contents). -/
structure PILImage where
  width : ℤ
  height : ℤ
deriving DecidableEq

/-- Model of `Image.new(...)`. -/
def image_new (w h : ℤ) : PILImage := ⟨w, h⟩

/-- Model of `canvas.paste(tile, (dx, dy))`: pasting never changes the
    canvas dimensions. -/
def image_paste (canvas tile : PILImage) (dx dy : ℤ) : PILImage := canvas

/-- Model of `img.crop((l, t, r, b))`: the result is `(r - l) × (b - t)`. -/
def image_crop (img : PILImage) (l t r b : ℤ) : PILImage := ⟨r - l, b - t⟩

/-- Model of `img.resize((w, h), ...)`: the result is exactly `w × h`. -/
def image_resize (img : PILImage) (w h : ℤ) : PILImage := ⟨w, h⟩

/-- The list of integers `a, a+1, ..., b` (Python `range(a, b + 1)`). -/
def int_range (a b : ℤ) : List ℤ :=
  (List.range (b - a + 1).toNat).map (fun k : ℕ => a + (k : ℤ))

/-- Degrees to radians, `math.radians`. -/
noncomputable def radians (d : ℝ) : ℝ := d * (Real.pi / 180)

/-- The transform dict `{min_x, max_x, min_y, max_y, width, height}` both
    programs attach to a base map. -/
structure RasterTransform where
  min_x : ℝ
  max_x : ℝ
  min_y : ℝ
  max_y : ℝ
  width : ℤ
  height : ℤ

/-- Result of the tile-mosaic path: the resampled base map, the list of tile
    indices fetched (in fetch order), and the transform. -/
structure TilesResult where
  img : PILImage
  fetched : List (ℤ × ℤ)
  transform : RasterTransform

namespace GenerarMapa

/- Embedding of `generar_mapa_baleares.py`. -/

def WIDTH : ℤ := 1200

def HEIGHT : ℤ := 800

noncomputable def RADIUS : ℝ := 6378137

noncomputable def lon_to_merc_x (lon : ℝ) : ℝ := radians lon * RADIUS

noncomputable def lat_to_merc_y (lat : ℝ) : ℝ :=
  let latc := max (min lat 89.9) (-89.9)
  RADIUS * Real.log (Real.tan (Real.pi / 4 + radians latc / 2))

noncomputable def lonlat_to_tile (lon lat : ℝ) (zoom : ℕ) : ℝ × ℝ :=
  let lat_rad := radians lat
  let n : ℝ := 2 ^ zoom
  ((lon + 180) / 360 * n,
   (1 - Real.log (Real.tan lat_rad + 1 / Real.cos lat_rad) / Real.pi) / 2 * n)

noncomputable def tile_to_pixel (xtile ytile : ℝ) : ℝ × ℝ :=
  (xtile * 256, ytile * 256)

noncomputable def lonlat_to_pixel (lon lat : ℝ) (zoom : ℕ) : ℝ × ℝ :=
  let t := lonlat_to_tile lon lat zoom
  tile_to_pixel t.1 t.2

/-- The static path: one HTTP request (modelled by `resp`: the decoded image
    on success); `r.raise_for_status()` / decode failure raises, which the
    model propagates as `.error`.  On success the transform is computed from
    the requested bbox corners and the requested size only. -/
noncomputable def build_base_map_static (resp : Except Unit PILImage)
    (lat_min lat_max lon_min lon_max : ℝ) (width height : ℤ) :
    Except Unit (PILImage × RasterTransform) :=
  match resp with
  | .error e => .error e
  | .ok img =>
      .ok (img,
        { min_x := lon_to_merc_x lon_min, max_x := lon_to_merc_x lon_max,
          min_y := lat_to_merc_y lat_min, max_y := lat_to_merc_y lat_max,
          width := width, height := height })

/-- The placeholder raster built when a tile fetch fails: a fresh
    `TILE_SIZE × TILE_SIZE` image (the two diagonal gray lines drawn on it do
    not change its dimensions). -/
def placeholder_tile : PILImage := image_new 256 256

/-- A single tile download: any failure (network error, non-success response,
    decode failure) is caught by the bare `except` and replaced by the
    placeholder raster; the function never raises. -/
def download_tile (resp : Except Unit PILImage) : PILImage :=
  match resp with
  | .ok img => img
  | .error _ => placeholder_tile

/-- The tile-mosaic fallback path.  `tileResp` models the HTTP fetch of each
    tile index.  `int(px // 256)` is real floor (Python float floor-division
    followed by an exact `int()`); `int(...)` elsewhere is `pyInt`.  The
    nested loops `for tx: for ty:` fetch the rectangle of tile indices in
    lexicographic (tx, ty) order; the transform is computed at the end from
    the requested bbox corners and requested size only. -/
noncomputable def build_base_map_tiles (tileResp : ℤ × ℤ → Except Unit PILImage)
    (lat_min lat_max lon_min lon_max : ℝ) (zoom : ℕ) (width height : ℤ) :
    TilesResult :=
  let pmin := lonlat_to_pixel lon_min lat_min zoom
  let pmax := lonlat_to_pixel lon_max lat_max zoom
  let px_min_x := pmin.1
  let px_max_y := pmin.2
  let px_max_x := pmax.1
  let px_min_y := pmax.2
  let bbox_width := px_max_x - px_min_x
  let bbox_height := px_max_y - px_min_y
  let tile_x_min : ℤ := ⌊px_min_x / 256⌋
  let tile_x_max : ℤ := ⌊px_max_x / 256⌋
  let tile_y_min : ℤ := ⌊px_min_y / 256⌋
  let tile_y_max : ℤ := ⌊px_max_y / 256⌋
  let canvas := image_new ((tile_x_max - tile_x_min + 1) * 256)
                          ((tile_y_max - tile_y_min + 1) * 256)
  let fetched := (int_range tile_x_min tile_x_max).flatMap
    (fun tx => (int_range tile_y_min tile_y_max).map (fun ty => (tx, ty)))
  let canvas := fetched.foldl
    (fun cv txy => image_paste cv (download_tile (tileResp txy))
      ((txy.1 - tile_x_min) * 256) ((txy.2 - tile_y_min) * 256)) canvas
  let crop_left := pyInt (px_min_x - (tile_x_min : ℝ) * 256)
  let crop_top := pyInt (px_min_y - (tile_y_min : ℝ) * 256)
  let crop_right := crop_left + pyInt bbox_width
  let crop_bottom := crop_top + pyInt bbox_height
  let canvas := image_crop canvas crop_left crop_top crop_right crop_bottom
  let base_map := image_resize canvas width height
  { img := base_map, fetched := fetched,
    transform :=
      { min_x := lon_to_merc_x lon_min, max_x := lon_to_merc_x lon_max,
        min_y := lat_to_merc_y lat_min, max_y := lat_to_merc_y lat_max,
        width := width, height := height } }

/-- Projection of a geographic point to a pixel through a transform; `int()`
    truncates toward zero, and the y axis is inverted. -/
noncomputable def project_point_mercator (lon lat : ℝ) (t : RasterTransform) :
    ℤ × ℤ :=
  (pyInt ((lon_to_merc_x lon - t.min_x) / (t.max_x - t.min_x) * (t.width : ℝ)),
   pyInt ((t.max_y - lat_to_merc_y lat) / (t.max_y - t.min_y) * (t.height : ℝ)))

/-- A single Open-Meteo fetch: the response either fails (any exception is
    caught, yielding an absent temperature) or carries an optional
    `temperature_2m` field, rounded to one decimal on success. -/
def fetch_openmeteo (resp : Except Unit (Option ℚ)) : Option ℚ :=
  match resp with
  | .error _ => none
  | .ok none => none
  | .ok (some t) => some (round1 t)

/-- The colour stops of the palette. -/
def stops : List Stop :=
  [(-10, (132, 0, 168)), (-5, (44, 0, 184)), (0, (0, 90, 200)),
   (3, (0, 150, 200)), (6, (0, 180, 170)), (9, (0, 200, 120)),
   (12, (80, 200, 60)), (15, (150, 200, 0)), (18, (200, 180, 0)),
   (21, (230, 150, 0)), (24, (240, 120, 0)), (27, (240, 90, 0)),
   (30, (240, 60, 0)), (33, (230, 30, 0)), (36, (220, 0, 0)),
   (39, (220, 0, 40)), (42, (230, 0, 100)), (45, (240, 0, 150)),
   (47, (250, 0, 180)), (50, (255, 0, 220))]

/-- The loop body once a bracket `t0 ≤ t ≤ t1` is found:
    `f = 0 if t1 == t0 else (t - t0) / (t1 - t0)` and each channel is
    `int(c0 + f * (c1 - c0))`. -/
def bracket_color (a b : Stop) (t : ℚ) : RGB :=
  let f : ℚ := if b.1 = a.1 then 0 else (t - a.1) / (b.1 - a.1)
  (pyInt ((a.2.1 : ℚ) + f * ((b.2.1 : ℚ) - (a.2.1 : ℚ))),
   pyInt ((a.2.2.1 : ℚ) + f * ((b.2.2.1 : ℚ) - (a.2.2.1 : ℚ))),
   pyInt ((a.2.2.2 : ℚ) + f * ((b.2.2.2 : ℚ) - (a.2.2.2 : ℚ))))

/-- The scan `for i in range(len(stops) - 1)` over consecutive stop pairs;
    past the last pair the function returns `stops[-1][1]`. -/
def scan_stops (t : ℚ) : List Stop → RGB
  | a :: b :: rest =>
      if a.1 ≤ t ∧ t ≤ b.1 then bracket_color a b t else scan_stops t (b :: rest)
  | [a] => a.2
  | [] => (200, 200, 200)

/-- The gradient engine: absent values map to neutral gray, other values are
    clamped to `[-10, 50]` and interpolated between the bracketing stops. -/
def temp_to_color (temp : Option ℚ) : RGB :=
  match temp with
  | none => (200, 200, 200)
  | some v => scan_stops (max (-10) (min 50 v)) stops

/-- The estimated badge box computed in `main` before drawing, expanded by
    `margin = 4` on all sides; `fw` is `font_small.getsize(text)[0]`. -/
def main_candidate (x y fw : ℤ) : Box :=
  let box_w : ℤ := max 52 (fw + 14)
  let box_h : ℤ := 18 + 12
  let box_x : ℤ := if x + 12 + box_w < WIDTH - 10 then x + 12 else x - 12 - box_w
  let box_y : ℤ := y - box_h / 2
  ⟨box_x - 4, box_y - 4, box_x + box_w + 4, box_y + box_h + 4⟩

/-- The drawing commands issued by `draw_marker` for one accepted location
    (anchor ellipse, shadow rectangle, badge rectangle, one text line).
    `textLen` is `len(text)`. -/
def draw_marker (x y : ℤ) (text : String) (textLen : ℤ) (temp : Option ℚ) :
    List DrawOp :=
  let color := temp_to_color temp
  let box_w : ℤ := max 52 (textLen * 9 + 14)
  let line_h : ℤ := 18
  let padding_v : ℤ := 6
  let box_h : ℤ := padding_v * 2 + line_h * 1
  let box_x : ℤ := if x + 12 + box_w < WIDTH - 10 then x + 12 else x - 12 - box_w
  let box_y : ℤ := y - box_h / 2
  [DrawOp.ellipse (x - 5) (y - 5) (x + 5) (y + 5) color,
   DrawOp.rectangle (box_x + 2) (box_y + 2) (box_x + box_w + 2) (box_y + box_h + 2),
   DrawOp.rectangle box_x box_y (box_x + box_w) (box_y + box_h),
   DrawOp.text (box_x + 8) (box_y + padding_v) text]

/-- The data `main` has in hand for one city when it attempts placement:
    the projected pixel anchor, the measured text width, the text and its
    length, and the fetched temperature. -/
structure CityRender where
  x : ℤ
  y : ℤ
  textWidth : ℤ
  text : String
  textLen : ℤ
  temp : Option ℚ

/-- One iteration of the placement loop in `main`: compute the
    margin-expanded candidate, test it against every accepted box, and either
    skip the city entirely (`continue`) or record the box and draw. -/
def main_place_step (st : List DrawOp × List Box) (c : CityRender) :
    List DrawOp × List Box :=
  let cand := main_candidate c.x c.y c.textWidth
  if overlaps_any st.2 cand then st
  else (st.1 ++ draw_marker c.x c.y c.text c.textLen c.temp, st.2 ++ [cand])

/-- The full placement pass of `main` over the ordered city list, starting
    from an empty `placed_boxes`. -/
def main_place_pass (cities : List CityRender) : List DrawOp × List Box :=
  cities.foldl main_place_step ([], [])

/-- The base-map acquisition in `main`: try the static path, and on any
    exception call the tile path exactly once (the second component counts
    invocations of `build_base_map_tiles`); an exception escaping the tile
    path propagates to the caller. -/
def main_acquire {R : Type} (staticResult : Except Unit R)
    (tilesResult : Except Unit R) : Except Unit R × ℕ :=
  match staticResult with
  | .ok r => (.ok r, 0)
  | .error _ => (tilesResult, 1)

/-- The render pass after acquisition: the output image is produced (saved)
    only when acquisition succeeded; an acquisition error aborts the pass
    before anything is written. -/
def render_output {R : Type} (acq : Except Unit R) : Except Unit R :=
  match acq with
  | .error e => .error e
  | .ok r => .ok r

end GenerarMapa

namespace GenerarMinmax

/- Embedding of `generar_minmax_baleares.py`. -/

def WIDTH : ℤ := 1200

def HEIGHT : ℤ := 800

noncomputable def LAT_MIN : ℝ := 38.5

noncomputable def LAT_MAX : ℝ := 40.2

noncomputable def LON_MIN : ℝ := 1.0

noncomputable def LON_MAX : ℝ := 4.5

def ZOOM : ℕ := 8

noncomputable def RADIUS : ℝ := 6378137

noncomputable def lon_to_merc_x (lon : ℝ) : ℝ := radians lon * RADIUS

noncomputable def lat_to_merc_y (lat : ℝ) : ℝ :=
  let latc := max (min lat 89.9) (-89.9)
  RADIUS * Real.log (Real.tan (Real.pi / 4 + radians latc / 2))

noncomputable def lonlat_to_tile (lon lat : ℝ) (zoom : ℕ) : ℝ × ℝ :=
  let lat_rad := radians lat
  let n : ℝ := 2 ^ zoom
  ((lon + 180) / 360 * n,
   (1 - Real.log (Real.tan lat_rad + 1 / Real.cos lat_rad) / Real.pi) / 2 * n)

noncomputable def tile_to_pixel (xtile ytile : ℝ) : ℝ × ℝ :=
  (xtile * 256, ytile * 256)

noncomputable def lonlat_to_pixel (lon lat : ℝ) (zoom : ℕ) : ℝ × ℝ :=
  let t := lonlat_to_tile lon lat zoom
  tile_to_pixel t.1 t.2

/-- Static path of the minmax program: the bbox is the module-level constant
    bounding box; the transform is computed from it and the requested size. -/
noncomputable def build_base_map_static (resp : Except Unit PILImage)
    (width height : ℤ) : Except Unit (PILImage × RasterTransform) :=
  match resp with
  | .error e => .error e
  | .ok img =>
      .ok (img,
        { min_x := lon_to_merc_x LON_MIN, max_x := lon_to_merc_x LON_MAX,
          min_y := lat_to_merc_y LAT_MIN, max_y := lat_to_merc_y LAT_MAX,
          width := width, height := height })

/-- Tile download of the minmax program: failures yield a plain light-gray
    `TILE_SIZE × TILE_SIZE` placeholder and never raise. -/
def download_tile (resp : Except Unit PILImage) : PILImage :=
  match resp with
  | .ok img => img
  | .error _ => image_new 256 256

/-- Tile-mosaic path of the minmax program (fixed bbox and zoom). -/
noncomputable def build_base_map_tiles (tileResp : ℤ × ℤ → Except Unit PILImage)
    (width height : ℤ) : TilesResult :=
  let pmin := lonlat_to_pixel LON_MIN LAT_MIN ZOOM
  let pmax := lonlat_to_pixel LON_MAX LAT_MAX ZOOM
  let px_min_x := pmin.1
  let px_max_y := pmin.2
  let px_max_x := pmax.1
  let px_min_y := pmax.2
  let bbox_width := px_max_x - px_min_x
  let bbox_height := px_max_y - px_min_y
  let tile_x_min : ℤ := ⌊px_min_x / 256⌋
  let tile_x_max : ℤ := ⌊px_max_x / 256⌋
  let tile_y_min : ℤ := ⌊px_min_y / 256⌋
  let tile_y_max : ℤ := ⌊px_max_y / 256⌋
  let canvas := image_new ((tile_x_max - tile_x_min + 1) * 256)
                          ((tile_y_max - tile_y_min + 1) * 256)
  let fetched := (int_range tile_x_min tile_x_max).flatMap
    (fun tx => (int_range tile_y_min tile_y_max).map (fun ty => (tx, ty)))
  let canvas := fetched.foldl
    (fun cv txy => image_paste cv (download_tile (tileResp txy))
      ((txy.1 - tile_x_min) * 256) ((txy.2 - tile_y_min) * 256)) canvas
  let crop_left := pyInt (px_min_x - (tile_x_min : ℝ) * 256)
  let crop_top := pyInt (px_min_y - (tile_y_min : ℝ) * 256)
  let crop_right := crop_left + pyInt bbox_width
  let crop_bottom := crop_top + pyInt bbox_height
  let canvas := image_crop canvas crop_left crop_top crop_right crop_bottom
  let base_map := image_resize canvas width height
  { img := base_map, fetched := fetched,
    transform :=
      { min_x := lon_to_merc_x LON_MIN, max_x := lon_to_merc_x LON_MAX,
        min_y := lat_to_merc_y LAT_MIN, max_y := lat_to_merc_y LAT_MAX,
        width := width, height := height } }

/-- The colour stops of the minmax palette (textually identical to the ones
    in `generar_mapa_baleares.py`). -/
def stops : List Stop :=
  [(-10, (132, 0, 168)), (-5, (44, 0, 184)), (0, (0, 90, 200)),
   (3, (0, 150, 200)), (6, (0, 180, 170)), (9, (0, 200, 120)),
   (12, (80, 200, 60)), (15, (150, 200, 0)), (18, (200, 180, 0)),
   (21, (230, 150, 0)), (24, (240, 120, 0)), (27, (240, 90, 0)),
   (30, (240, 60, 0)), (33, (230, 30, 0)), (36, (220, 0, 0)),
   (39, (220, 0, 40)), (42, (230, 0, 100)), (45, (240, 0, 150)),
   (47, (250, 0, 180)), (50, (255, 0, 220))]

/-- Loop body of the minmax gradient engine once a bracket is found. -/
def bracket_color (a b : Stop) (t : ℚ) : RGB :=
  let f : ℚ := if b.1 = a.1 then 0 else (t - a.1) / (b.1 - a.1)
  (pyInt ((a.2.1 : ℚ) + f * ((b.2.1 : ℚ) - (a.2.1 : ℚ))),
   pyInt ((a.2.2.1 : ℚ) + f * ((b.2.2.1 : ℚ) - (a.2.2.1 : ℚ))),
   pyInt ((a.2.2.2 : ℚ) + f * ((b.2.2.2 : ℚ) - (a.2.2.2 : ℚ))))

/-- The bracket scan of the minmax gradient engine. -/
def scan_stops (t : ℚ) : List Stop → RGB
  | a :: b :: rest =>
      if a.1 ≤ t ∧ t ≤ b.1 then bracket_color a b t else scan_stops t (b :: rest)
  | [a] => a.2
  | [] => (200, 200, 200)

/-- The gradient engine of the minmax program. -/
def temp_to_color (temp : Option ℚ) : RGB :=
  match temp with
  | none => (200, 200, 200)
  | some v => scan_stops (max (-10) (min 50 v)) stops

/-- The candidate box computed by `draw_badge` (margin 3 on all sides);
    `textW` is `font.getsize(text)[0]`. -/
def badge_candidate (x y textW : ℤ) : Box :=
  let box_w : ℤ := max 46 (textW + 12)
  let box_h : ℤ := 16 + 10
  let box_x : ℤ := if x + 10 + box_w < WIDTH - 10 then x + 10 else x - 10 - box_w
  let box_y : ℤ := y - box_h / 2
  ⟨box_x - 3, box_y - 3, box_x + box_w + 3, box_y + box_h + 3⟩

/-- The badge drawer of the minmax program: compute the candidate box
    (margin 3), test it against every accepted box, and on overlap return
    `False` having drawn nothing and recorded nothing; otherwise draw the
    pin and the badge and append the box.  `textW` is
    `font.getsize(text)[0]`. -/
def draw_badge (x y : ℤ) (text : String) (textW : ℤ) (temp : Option ℚ)
    (ops : List DrawOp) (placed : List Box) :
    Bool × List DrawOp × List Box :=
  let color := temp_to_color temp
  let box_w : ℤ := max 46 (textW + 12)
  let box_h : ℤ := 16 + 10
  let box_x : ℤ := if x + 10 + box_w < WIDTH - 10 then x + 10 else x - 10 - box_w
  let box_y : ℤ := y - box_h / 2
  let candidate : Box := badge_candidate x y textW
  if overlaps_any placed candidate then (false, ops, placed)
  else
    (true,
     ops ++
       [DrawOp.ellipse (x - 4) (y - 4) (x + 4) (y + 4) color,
        DrawOp.rectangle (box_x + 2) (box_y + 2) (box_x + box_w + 2) (box_y + box_h + 2),
        DrawOp.rectangle box_x box_y (box_x + box_w) (box_y + box_h),
        DrawOp.text (box_x + 6) (box_y + 5) text],
     placed ++ [candidate])

/-- One badge attempt of the minmax render loop, as a state transformer on
    `(ops, placed)`. -/
def render_place_step (st : List DrawOp × List Box)
    (c : GenerarMapa.CityRender) : List DrawOp × List Box :=
  (draw_badge c.x c.y c.text c.textWidth c.temp st.1 st.2).2

/-- The placement pass of `render_map` over the ordered city list. -/
def render_place_pass (cities : List GenerarMapa.CityRender) :
    List DrawOp × List Box :=
  cities.foldl render_place_step ([], [])

/-- The inline projection in `render_map`:
    `x = int((merc_x - min_x) / (max_x - min_x) * WIDTH)` and the inverted
    y analogue. -/
noncomputable def render_project (lon lat : ℝ) (t : RasterTransform) : ℤ × ℤ :=
  (pyInt ((lon_to_merc_x lon - t.min_x) / (t.max_x - t.min_x) * (WIDTH : ℝ)),
   pyInt ((t.max_y - lat_to_merc_y lat) / (t.max_y - t.min_y) * (HEIGHT : ℝ)))

/-- A min/max observation fetch: any failure is caught and yields the absent
    pair; success carries the optional first elements of the two daily
    arrays. -/
def fetch_minmax (resp : Except Unit (Option ℚ × Option ℚ)) :
    Option ℚ × Option ℚ :=
  match resp with
  | .error _ => (none, none)
  | .ok (tmin, tmax) => (tmin, tmax)

end GenerarMinmax

/-- Written from the specification text, for comparison with the code: the
    spec states each output channel is `round(c0 + f*(c1-c0))`, the rounded
    (nearest-integer) linear interpolation, with
    `f = (value - t0) / (t1 - t0)` (or 0 when `t0 = t1`). -/
def spec_bracket_color_rounded (a b : Stop) (t : ℚ) : RGB :=
  let f : ℚ := if b.1 = a.1 then 0 else (t - a.1) / (b.1 - a.1)
  (round ((a.2.1 : ℚ) + f * ((b.2.1 : ℚ) - (a.2.1 : ℚ))),
   round ((a.2.2.1 : ℚ) + f * ((b.2.2.1 : ℚ) - (a.2.2.1 : ℚ))),
   round ((a.2.2.2 : ℚ) + f * ((b.2.2.2 : ℚ) - (a.2.2.2 : ℚ))))

/- ------------------------------------------------------------------
   Theorems.
   ------------------------------------------------------------------ -/

theorem pyInt_intCast {α : Type} [LinearOrderedField α] [FloorRing α] (n : ℤ) :
    pyInt ((n : α)) = n := by
  unfold pyInt
  split_ifs <;> simp

theorem bracket_color_left (a b : Stop) :
    GenerarMapa.bracket_color a b a.1 = a.2 := by
  unfold GenerarMapa.bracket_color
  have hf : (if b.1 = a.1 then (0 : ℚ) else (a.1 - a.1) / (b.1 - a.1)) = 0 := by
    split_ifs <;> simp
  rw [hf]
  simp [pyInt_intCast]

theorem bracket_color_right (a b : Stop) (h : a.1 ≠ b.1) :
    GenerarMapa.bracket_color a b b.1 = b.2 := by
  unfold GenerarMapa.bracket_color
  have hne : b.1 - a.1 ≠ 0 := sub_ne_zero.mpr (Ne.symm h)
  have hf : (if b.1 = a.1 then (0 : ℚ) else (b.1 - a.1) / (b.1 - a.1)) = 1 := by
    rw [if_neg (Ne.symm h)]
    exact div_self hne
  rw [hf]
  have hch : ∀ c0 c1 : ℤ, (c0 : ℚ) + 1 * ((c1 : ℚ) - (c0 : ℚ)) = ((c1 : ℤ) : ℚ) := by
    intro c0 c1; push_cast; ring
  simp only [hch, pyInt_intCast]

/-- The scan over consecutive stop pairs returns the interpolation of any
    bracketing pair: the first matching pair wins, and at a shared boundary
    consecutive pairs agree because the stop colours are integral. -/
theorem scan_stops_bracket :
    ∀ (i : ℕ) (l : List Stop) (t : ℚ) (hi : i + 1 < l.length),
      l.Pairwise (fun x y => x.1 < y.1) →
      (l.get ⟨i, Nat.lt_of_succ_lt hi⟩).1 ≤ t →
      t ≤ (l.get ⟨i + 1, hi⟩).1 →
      GenerarMapa.scan_stops t l =
        GenerarMapa.bracket_color (l.get ⟨i, Nat.lt_of_succ_lt hi⟩)
          (l.get ⟨i + 1, hi⟩) t := by
  intro i
  induction i with
  | zero =>
      intro l t hi hsort h0 h1
      rcases l with _ | ⟨a, l⟩
      · simp at hi
      rcases l with _ | ⟨b, rest⟩
      · simp at hi
      rw [GenerarMapa.scan_stops, if_pos ⟨h0, h1⟩]
      rfl
  | succ n ih =>
      intro l t hi hsort h0 h1
      rcases l with _ | ⟨a, l⟩
      · simp at hi
      rcases l with _ | ⟨b, rest⟩
      · simp at hi
      have hi' : n + 1 < (b :: rest).length := by
        simpa [Nat.succ_lt_succ_iff] using hi
      have hsort' : (b :: rest).Pairwise (fun x y => x.1 < y.1) :=
        hsort.of_cons
      have hble : b.1 ≤ (((b :: rest).get ⟨n, Nat.lt_of_succ_lt hi'⟩)).1 := by
        rcases Nat.eq_zero_or_pos n with hn | hn
        · subst hn; exact le_refl _
        · exact le_of_lt
            (List.pairwise_iff_get.mp hsort' ⟨0, Nat.lt_of_le_of_lt (Nat.zero_le _) hi'⟩
              ⟨n, Nat.lt_of_succ_lt hi'⟩ hn)
      by_cases hcond : a.1 ≤ t ∧ t ≤ b.1
      · have ht : t = b.1 := le_antisymm hcond.2 (le_trans hble h0)
        have hn : n = 0 := by
          by_contra hne
          have hpos : 0 < n := Nat.pos_of_ne_zero hne
          have hlt : b.1 < (((b :: rest).get ⟨n, Nat.lt_of_succ_lt hi'⟩)).1 :=
            List.pairwise_iff_get.mp hsort' ⟨0, Nat.lt_of_le_of_lt (Nat.zero_le _) hi'⟩
              ⟨n, Nat.lt_of_succ_lt hi'⟩ hpos
          have hle : (((b :: rest).get ⟨n, Nat.lt_of_succ_lt hi'⟩)).1 ≤ b.1 :=
            ht ▸ h0
          linarith
        subst hn
        rcases rest with _ | ⟨c, rest2⟩
        · simp at hi'
        have hab : a.1 ≠ b.1 :=
          ne_of_lt (List.rel_of_pairwise_cons hsort (List.mem_cons_self b _))
        rw [GenerarMapa.scan_stops, if_pos hcond, ht, bracket_color_right a b hab]
        exact (bracket_color_left b c).symm
      · rw [GenerarMapa.scan_stops, if_neg hcond]
        exact ih (b :: rest) t hi' hsort' h0 h1

/-- The two gradient engines agree bracket scan by bracket scan. -/
theorem scan_stops_minmax_eq (l : List Stop) (t : ℚ) :
    GenerarMinmax.scan_stops t l = GenerarMapa.scan_stops t l := by
  induction l with
  | nil => rfl
  | cons a rest ih =>
      rcases rest with _ | ⟨b, rest2⟩
      · rfl
      rw [GenerarMinmax.scan_stops, GenerarMapa.scan_stops]
      split_ifs
      · rfl
      · exact ih

/-- C10: the two sibling programs' gradient engines are extensionally equal:
    for every input, including the absent (`None`) sentinel, `temp_to_color`
    in `generar_mapa_baleares.py` and `temp_to_color` in
    `generar_minmax_baleares.py` return the same RGB triple. -/
theorem c10_gradient_engines_extensionally_equal (t : Option ℚ) :
    GenerarMapa.temp_to_color t = GenerarMinmax.temp_to_color t := by
  cases t with
  | none => rfl
  | some v =>
      show GenerarMapa.scan_stops (max (-10) (min 50 v)) GenerarMapa.stops =
        GenerarMinmax.scan_stops (max (-10) (min 50 v)) GenerarMinmax.stops
      have hs : GenerarMinmax.stops = GenerarMapa.stops := rfl
      rw [scan_stops_minmax_eq, hs]

/-- C8: `temp_to_color` clamps its input to the stop domain `[-10, 50]`:
    every value at or below the first stop yields the first stop's colour
    `(132, 0, 168)` (so `temp_to_color (-100) = temp_to_color (-10)`), and
    every value at or above the last stop yields the last stop's colour
    `(255, 0, 220)` (so `temp_to_color 1000` is the last stop's colour). -/
theorem c8_gradient_clamping (v : ℚ) :
    (v ≤ -10 →
      GenerarMapa.temp_to_color (some v) = GenerarMapa.temp_to_color (some (-10)) ∧
      GenerarMapa.temp_to_color (some v) = (132, 0, 168)) ∧
    (50 ≤ v →
      GenerarMapa.temp_to_color (some v) = GenerarMapa.temp_to_color (some 50) ∧
      GenerarMapa.temp_to_color (some v) = (255, 0, 220)) := by
  have hlow : GenerarMapa.scan_stops (-10) GenerarMapa.stops = (132, 0, 168) := by
    norm_num [GenerarMapa.stops, GenerarMapa.scan_stops, GenerarMapa.bracket_color,
      pyInt]
  have hhigh : GenerarMapa.scan_stops 50 GenerarMapa.stops = (255, 0, 220) := by
    norm_num [GenerarMapa.stops, GenerarMapa.scan_stops, GenerarMapa.bracket_color,
      pyInt]
  constructor
  · intro h
    have hc : max (-10 : ℚ) (min 50 v) = -10 := by
      rw [min_eq_right (le_trans h (by norm_num))]
      exact max_eq_left h
    have hc10 : max (-10 : ℚ) (min 50 (-10 : ℚ)) = -10 := by norm_num
    constructor
    · show GenerarMapa.scan_stops _ GenerarMapa.stops =
        GenerarMapa.scan_stops _ GenerarMapa.stops
      rw [hc, hc10]
    · show GenerarMapa.scan_stops _ GenerarMapa.stops = _
      rw [hc, hlow]
  · intro h
    have hc : max (-10 : ℚ) (min 50 v) = 50 := by
      rw [min_eq_left h]; norm_num
    have hc50 : max (-10 : ℚ) (min 50 (50 : ℚ)) = 50 := by norm_num
    constructor
    · show GenerarMapa.scan_stops _ GenerarMapa.stops =
        GenerarMapa.scan_stops _ GenerarMapa.stops
      rw [hc, hc50]
    · show GenerarMapa.scan_stops _ GenerarMapa.stops = _
      rw [hc, hhigh]

/-- Closed instance of the clamping property at the spec's own test values
    -100 and 1000. -/
theorem c8_gradient_clamping_witness :
    GenerarMapa.temp_to_color (some (-100)) = GenerarMapa.temp_to_color (some (-10)) ∧
    GenerarMapa.temp_to_color (some 1000) = (255, 0, 220) :=
  ⟨((c8_gradient_clamping (-100)).1 (by norm_num)).1,
   ((c8_gradient_clamping 1000).2 (by norm_num)).2⟩

/-- C4 fails as stated: the code computes each channel with Python `int()`
    (truncation), not `round`.  At value -8 (bracketed by the first two
    stops), the red channel is `132 + (2/5)*(44 - 132) = 96.8`; the code
    yields 96 while the spec's rounded interpolation yields 97. -/
theorem c4_counterexample :
    GenerarMapa.stops.take 2 = [(-10, (132, 0, 168)), (-5, (44, 0, 184))] ∧
    (-10 : ℚ) ≤ max (-10) (min 50 (-8 : ℚ)) ∧
    max (-10) (min 50 (-8 : ℚ)) ≤ -5 ∧
    GenerarMapa.temp_to_color (some (-8)) = (96, 0, 174) ∧
    spec_bracket_color_rounded (-10, (132, 0, 168)) (-5, (44, 0, 184))
      (max (-10) (min 50 (-8 : ℚ))) = (97, 0, 174) ∧
    GenerarMapa.temp_to_color (some (-8)) ≠
      spec_bracket_color_rounded (-10, (132, 0, 168)) (-5, (44, 0, 184))
        (max (-10) (min 50 (-8 : ℚ))) := by
  refine ⟨rfl, by norm_num, by norm_num, ?_, ?_, ?_⟩
  · norm_num [GenerarMapa.temp_to_color, GenerarMapa.stops, GenerarMapa.scan_stops,
      GenerarMapa.bracket_color, pyInt]
  · norm_num [spec_bracket_color_rounded, round_eq]
  · norm_num [GenerarMapa.temp_to_color, GenerarMapa.stops, GenerarMapa.scan_stops,
      GenerarMapa.bracket_color, pyInt, spec_bracket_color_rounded, round_eq]

/-- C4 (amended): for every non-absent value `v` and every pair of
    consecutive stops bracketing the clamped value, `temp_to_color` computes
    each channel as the TRUNCATED linear interpolation
    `int(c0 + f*(c1-c0))` with `f = (v - t0)/(t1 - t0)` (`f = 0` when
    `t0 = t1`) — `bracket_color` is literally that formula — rather than the
    rounded one claimed by the spec. -/
theorem c4_channels_linear_interpolation (v : ℚ) (i : ℕ)
    (hi : i + 1 < GenerarMapa.stops.length)
    (h0 : (GenerarMapa.stops.get ⟨i, Nat.lt_of_succ_lt hi⟩).1 ≤ max (-10) (min 50 v))
    (h1 : max (-10) (min 50 v) ≤ (GenerarMapa.stops.get ⟨i + 1, hi⟩).1) :
    GenerarMapa.temp_to_color (some v) =
      GenerarMapa.bracket_color (GenerarMapa.stops.get ⟨i, Nat.lt_of_succ_lt hi⟩)
        (GenerarMapa.stops.get ⟨i + 1, hi⟩) (max (-10) (min 50 v)) := by
  have hsort : GenerarMapa.stops.Pairwise (fun x y => x.1 < y.1) := by
    norm_num [GenerarMapa.stops, List.pairwise_cons]
  show GenerarMapa.scan_stops (max (-10) (min 50 v)) GenerarMapa.stops = _
  exact scan_stops_bracket i GenerarMapa.stops _ hi hsort h0 h1

/-- Concrete instance of the amended interpolation property at value -9 in
    the first bracket. -/
theorem c4_channels_linear_interpolation_witness :
    GenerarMapa.temp_to_color (some (-9)) =
      GenerarMapa.bracket_color
        (GenerarMapa.stops.get ⟨0, by norm_num [GenerarMapa.stops]⟩)
        (GenerarMapa.stops.get ⟨1, by norm_num [GenerarMapa.stops]⟩)
        (max (-10) (min 50 (-9 : ℚ))) :=
  c4_channels_linear_interpolation (-9) 0 (by norm_num [GenerarMapa.stops])
    (by norm_num [GenerarMapa.stops]) (by norm_num [GenerarMapa.stops])

theorem boxes_disjoint_symm (a b : Box) (h : boxes_disjoint a b = true) :
    boxes_disjoint b a = true := by
  simp only [boxes_disjoint, Bool.or_eq_true, decide_eq_true_eq, gt_iff_lt] at h ⊢
  omega

theorem boxes_disjoint_no_common_point (a b : Box) (h : boxes_disjoint a b = true) :
    ¬ ∃ px py : ℤ,
      (a.left ≤ px ∧ px ≤ a.right ∧ a.top ≤ py ∧ py ≤ a.bottom) ∧
      (b.left ≤ px ∧ px ≤ b.right ∧ b.top ≤ py ∧ py ≤ b.bottom) := by
  simp only [boxes_disjoint, Bool.or_eq_true, decide_eq_true_eq, gt_iff_lt] at h
  rintro ⟨px, py, ⟨h1, h2, h3, h4⟩, ⟨h5, h6, h7, h8⟩⟩
  omega

theorem overlaps_any_eq_false (placed : List Box) (cand : Box)
    (h : overlaps_any placed cand = false) :
    ∀ b ∈ placed, boxes_disjoint cand b = true := by
  intro b hb
  simp only [overlaps_any, List.any_eq_false, Bool.not_eq_true,
    Bool.not_eq_true'] at h
  have hb' := h b hb
  simpa using hb'

theorem main_place_step_pairwise (st : List DrawOp × List Box)
    (c : GenerarMapa.CityRender)
    (h : st.2.Pairwise (fun a b => boxes_disjoint a b = true)) :
    ((GenerarMapa.main_place_step st c).2).Pairwise
      (fun a b => boxes_disjoint a b = true) := by
  by_cases hov : overlaps_any st.2 (GenerarMapa.main_candidate c.x c.y c.textWidth) = true
  · simp only [GenerarMapa.main_place_step, hov, if_true]
    exact h
  · have hov' : overlaps_any st.2 (GenerarMapa.main_candidate c.x c.y c.textWidth)
        = false := by
      revert hov
      cases overlaps_any st.2 (GenerarMapa.main_candidate c.x c.y c.textWidth) <;> simp
    simp only [GenerarMapa.main_place_step, hov', Bool.false_eq_true, if_false]
    rw [List.pairwise_append]
    refine ⟨h, List.pairwise_singleton _ _, ?_⟩
    intro a ha b hb
    rw [List.mem_singleton] at hb
    subst hb
    exact boxes_disjoint_symm _ _ (overlaps_any_eq_false st.2 _ hov' a ha)

theorem draw_badge_pairwise (x y : ℤ) (text : String) (textW : ℤ)
    (temp : Option ℚ) (ops : List DrawOp) (placed : List Box)
    (h : placed.Pairwise (fun a b => boxes_disjoint a b = true)) :
    ((GenerarMinmax.draw_badge x y text textW temp ops placed).2.2).Pairwise
      (fun a b => boxes_disjoint a b = true) := by
  by_cases hov : overlaps_any placed (GenerarMinmax.badge_candidate x y textW) = true
  · simp only [GenerarMinmax.draw_badge, hov, if_true]
    exact h
  · have hov' : overlaps_any placed (GenerarMinmax.badge_candidate x y textW)
        = false := by
      revert hov
      cases overlaps_any placed (GenerarMinmax.badge_candidate x y textW) <;> simp
    simp only [GenerarMinmax.draw_badge, hov', Bool.false_eq_true, if_false]
    rw [List.pairwise_append]
    refine ⟨h, List.pairwise_singleton _ _, ?_⟩
    intro a ha b hb
    rw [List.mem_singleton] at hb
    subst hb
    exact boxes_disjoint_symm _ _ (overlaps_any_eq_false placed _ hov' a ha)

theorem main_place_foldl_pairwise (cities : List GenerarMapa.CityRender)
    (st : List DrawOp × List Box)
    (h : st.2.Pairwise (fun a b => boxes_disjoint a b = true)) :
    ((cities.foldl GenerarMapa.main_place_step st).2).Pairwise
      (fun a b => boxes_disjoint a b = true) := by
  induction cities generalizing st with
  | nil => exact h
  | cons c rest ih => exact ih _ (main_place_step_pairwise st c h)

theorem render_place_foldl_pairwise (cities : List GenerarMapa.CityRender)
    (st : List DrawOp × List Box)
    (h : st.2.Pairwise (fun a b => boxes_disjoint a b = true)) :
    ((cities.foldl GenerarMinmax.render_place_step st).2).Pairwise
      (fun a b => boxes_disjoint a b = true) := by
  induction cities generalizing st with
  | nil => exact h
  | cons c rest ih =>
      exact ih _ (draw_badge_pairwise c.x c.y c.text c.textWidth c.temp st.1 st.2 h)

/-- C3: after the full greedy placement pass (in either program, over any
    ordered input list), the accumulated accepted margin-expanded boxes are
    pairwise disjoint under the programs' axis-aligned rectangle test, and
    consequently no two accepted boxes share any pixel. -/
theorem c3_no_overlap_invariant (cities : List GenerarMapa.CityRender) :
    ((GenerarMapa.main_place_pass cities).2).Pairwise
      (fun a b => boxes_disjoint a b = true) ∧
    ((GenerarMapa.main_place_pass cities).2).Pairwise
      (fun a b => ¬ ∃ px py : ℤ,
        (a.left ≤ px ∧ px ≤ a.right ∧ a.top ≤ py ∧ py ≤ a.bottom) ∧
        (b.left ≤ px ∧ px ≤ b.right ∧ b.top ≤ py ∧ py ≤ b.bottom)) ∧
    ((GenerarMinmax.render_place_pass cities).2).Pairwise
      (fun a b => boxes_disjoint a b = true) ∧
    ((GenerarMinmax.render_place_pass cities).2).Pairwise
      (fun a b => ¬ ∃ px py : ℤ,
        (a.left ≤ px ∧ px ≤ a.right ∧ a.top ≤ py ∧ py ≤ a.bottom) ∧
        (b.left ≤ px ∧ px ≤ b.right ∧ b.top ≤ py ∧ py ≤ b.bottom)) := by
  have h1 := main_place_foldl_pairwise cities ([], []) List.Pairwise.nil
  have h2 := render_place_foldl_pairwise cities ([], []) List.Pairwise.nil
  exact ⟨h1, h1.imp (fun hab => boxes_disjoint_no_common_point _ _ hab),
    h2, h2.imp (fun hab => boxes_disjoint_no_common_point _ _ hab)⟩

/-- C9: when the candidate label box overlaps a previously accepted box, the
    attempt rejects atomically in both programs: nothing is drawn (neither
    pin nor badge), the accepted-box list is unchanged, and (in the minmax
    program) `draw_badge` returns `False`. -/
theorem c9_atomic_rejection (x y textW : ℤ) (text : String) (temp : Option ℚ)
    (ops : List DrawOp) (placed : List Box) (st : List DrawOp × List Box)
    (c : GenerarMapa.CityRender) :
    (overlaps_any placed (GenerarMinmax.badge_candidate x y textW) = true →
      GenerarMinmax.draw_badge x y text textW temp ops placed =
        (false, ops, placed)) ∧
    (overlaps_any st.2 (GenerarMapa.main_candidate c.x c.y c.textWidth) = true →
      GenerarMapa.main_place_step st c = st) := by
  constructor
  · intro h
    unfold GenerarMinmax.draw_badge
    rw [if_pos h]
  · intro h
    unfold GenerarMapa.main_place_step
    rw [if_pos h]

/-- Concrete rejection instance: a candidate identical to an already accepted
    box is rejected with no state change in either program. -/
theorem c9_atomic_rejection_witness :
    GenerarMinmax.draw_badge 0 0 "x" 0 none [] [⟨7, -16, 59, 16⟩] =
      (false, [], [⟨7, -16, 59, 16⟩]) ∧
    GenerarMapa.main_place_step ([], [⟨8, -19, 68, 19⟩]) ⟨0, 0, 0, "x", 1, none⟩ =
      ([], [⟨8, -19, 68, 19⟩]) :=
  ⟨(c9_atomic_rejection 0 0 0 "x" none [] [⟨7, -16, 59, 16⟩]
      ([], [⟨8, -19, 68, 19⟩]) ⟨0, 0, 0, "x", 1, none⟩).1 (by decide),
   (c9_atomic_rejection 0 0 0 "x" none [] [⟨7, -16, 59, 16⟩]
      ([], [⟨8, -19, 68, 19⟩]) ⟨0, 0, 0, "x", 1, none⟩).2 (by decide)⟩

/-- C7: every single-item failure is recovered locally and never propagates:
    a failed tile download yields the tile-sized placeholder raster (in both
    programs), a failed observation fetch yields the absent value.  The
    embedded recovery functions are total, so no exception can escape them. -/
theorem c7_per_item_failure_recovery (e : Unit)
    (tresp tresp2 : Except Unit PILImage) (oresp : Except Unit (Option ℚ))
    (mresp : Except Unit (Option ℚ × Option ℚ)) :
    (tresp = .error e →
      GenerarMapa.download_tile tresp = GenerarMapa.placeholder_tile ∧
      GenerarMapa.placeholder_tile.width = 256 ∧
      GenerarMapa.placeholder_tile.height = 256) ∧
    (tresp2 = .error e →
      GenerarMinmax.download_tile tresp2 = image_new 256 256) ∧
    (oresp = .error e → GenerarMapa.fetch_openmeteo oresp = none) ∧
    (mresp = .error e → GenerarMinmax.fetch_minmax mresp = (none, none)) := by
  refine ⟨?_, ?_, ?_, ?_⟩
  · rintro rfl; exact ⟨rfl, rfl, rfl⟩
  · rintro rfl; rfl
  · rintro rfl; rfl
  · rintro rfl; rfl

/-- Concrete failure instance for all four per-item recovery functions. -/
theorem c7_per_item_failure_recovery_witness :
    GenerarMapa.download_tile (.error ()) = GenerarMapa.placeholder_tile ∧
    GenerarMinmax.download_tile (.error ()) = image_new 256 256 ∧
    GenerarMapa.fetch_openmeteo (.error ()) = none ∧
    GenerarMinmax.fetch_minmax (.error ()) = (none, none) := by
  have h := c7_per_item_failure_recovery () (.error ()) (.error ()) (.error ())
    (.error ())
  exact ⟨(h.1 rfl).1, h.2.1 rfl, h.2.2.1 rfl, h.2.2.2 rfl⟩

/-- C6: if the static request raises, `main` invokes the tile-mosaic path
    exactly once; the tile path's raster has exactly the requested
    dimensions; and if the tile path also fails, the error is surfaced to
    the caller of the render pass and no output image is produced. -/
theorem c6_static_failure_fallback (e : Unit)
    (s t : Except Unit (PILImage × RasterTransform))
    (tileResp : ℤ × ℤ → Except Unit PILImage)
    (lat_min lat_max lon_min lon_max : ℝ) (zoom : ℕ) (w h : ℤ)
    (hs : s = .error e) :
    (GenerarMapa.main_acquire s t).2 = 1 ∧
    (GenerarMapa.main_acquire s t).1 = t ∧
    (GenerarMapa.build_base_map_tiles tileResp lat_min lat_max lon_min lon_max
        zoom w h).img = ⟨w, h⟩ ∧
    (∀ e2, t = .error e2 →
      GenerarMapa.render_output (GenerarMapa.main_acquire s t).1 = .error e2) := by
  subst hs
  refine ⟨rfl, rfl, rfl, ?_⟩
  rintro e2 rfl
  rfl

/-- Concrete fallback instance: static failure with a successful tile path,
    at the program's own bbox, zoom and canvas size. -/
theorem c6_static_failure_fallback_witness :
    (GenerarMapa.main_acquire (Except.error ())
        (Except.ok ((⟨1200, 800⟩ : PILImage),
          (⟨0, 1, 0, 1, 1200, 800⟩ : RasterTransform)))).2 = 1 ∧
    (GenerarMapa.main_acquire (Except.error ())
        (Except.ok ((⟨1200, 800⟩ : PILImage),
          (⟨0, 1, 0, 1, 1200, 800⟩ : RasterTransform)))).1 =
      Except.ok ((⟨1200, 800⟩ : PILImage),
        (⟨0, 1, 0, 1, 1200, 800⟩ : RasterTransform)) ∧
    (GenerarMapa.build_base_map_tiles (fun _ => .error ()) 38.5 40.2 1.0 4.5
        8 1200 800).img = ⟨1200, 800⟩ :=
  have h := c6_static_failure_fallback ()
    (Except.error ())
    (Except.ok ((⟨1200, 800⟩ : PILImage),
      (⟨0, 1, 0, 1, 1200, 800⟩ : RasterTransform)))
    (fun _ => .error ()) 38.5 40.2 1.0 4.5 8 1200 800 rfl
  ⟨h.1, h.2.1, h.2.2.1⟩

/-- C1: for every bbox and target size, the transform returned by the static
    path equals the one returned by the tile-mosaic path; both are the
    record built only from the bbox corners through `lon_to_merc_x` /
    `lat_to_merc_y` plus the requested width and height (never tile or
    canvas dimensions), so `project_point_mercator` is path-independent. -/
theorem c1_path_independent_transform (resp : Except Unit PILImage)
    (tileResp : ℤ × ℤ → Except Unit PILImage)
    (lat_min lat_max lon_min lon_max : ℝ) (zoom : ℕ) (w h : ℤ)
    (img : PILImage) (tr : RasterTransform)
    (hok : GenerarMapa.build_base_map_static resp lat_min lat_max lon_min
        lon_max w h = .ok (img, tr)) :
    tr = { min_x := GenerarMapa.lon_to_merc_x lon_min,
           max_x := GenerarMapa.lon_to_merc_x lon_max,
           min_y := GenerarMapa.lat_to_merc_y lat_min,
           max_y := GenerarMapa.lat_to_merc_y lat_max,
           width := w, height := h } ∧
    tr = (GenerarMapa.build_base_map_tiles tileResp lat_min lat_max lon_min
        lon_max zoom w h).transform ∧
    ∀ lon lat, GenerarMapa.project_point_mercator lon lat tr =
      GenerarMapa.project_point_mercator lon lat
        (GenerarMapa.build_base_map_tiles tileResp lat_min lat_max lon_min
          lon_max zoom w h).transform := by
  cases resp with
  | error e => simp [GenerarMapa.build_base_map_static] at hok
  | ok i =>
      simp only [GenerarMapa.build_base_map_static, Except.ok.injEq,
        Prod.mk.injEq] at hok
      obtain ⟨hi, htr⟩ := hok
      subst htr
      exact ⟨rfl, rfl, fun lon lat => rfl⟩

/-- Concrete instance of path independence at the program's own bbox and
    canvas size. -/
theorem c1_path_independent_transform_witness :
    ({ min_x := GenerarMapa.lon_to_merc_x 1.0,
       max_x := GenerarMapa.lon_to_merc_x 4.5,
       min_y := GenerarMapa.lat_to_merc_y 38.5,
       max_y := GenerarMapa.lat_to_merc_y 40.2,
       width := 1200, height := 800 } : RasterTransform) =
      (GenerarMapa.build_base_map_tiles (fun _ => .error ()) 38.5 40.2
        1.0 4.5 8 1200 800).transform :=
  (c1_path_independent_transform (.ok ⟨1200, 800⟩)
    (fun _ => .error ()) 38.5 40.2 1.0 4.5 8 1200 800 ⟨1200, 800⟩
    { min_x := GenerarMapa.lon_to_merc_x 1.0,
      max_x := GenerarMapa.lon_to_merc_x 4.5,
      min_y := GenerarMapa.lat_to_merc_y 38.5,
      max_y := GenerarMapa.lat_to_merc_y 40.2,
      width := 1200, height := 800 } rfl).2.1

theorem RADIUS_pos : (0 : ℝ) < GenerarMapa.RADIUS := by
  norm_num [GenerarMapa.RADIUS]

theorem lon_to_merc_x_lt (a b : ℝ) (h : a < b) :
    GenerarMapa.lon_to_merc_x a < GenerarMapa.lon_to_merc_x b := by
  unfold GenerarMapa.lon_to_merc_x radians
  have hc : (0 : ℝ) < Real.pi / 180 * GenerarMapa.RADIUS :=
    mul_pos (by positivity) RADIUS_pos
  have key : ∀ x : ℝ, x * (Real.pi / 180) * GenerarMapa.RADIUS =
      x * (Real.pi / 180 * GenerarMapa.RADIUS) := fun x => by ring
  rw [key, key]
  exact mul_lt_mul_of_pos_right h hc

theorem lon_to_merc_x_le (a b : ℝ) (h : a ≤ b) :
    GenerarMapa.lon_to_merc_x a ≤ GenerarMapa.lon_to_merc_x b := by
  rcases eq_or_lt_of_le h with rfl | hlt
  · exact le_refl _
  · exact le_of_lt (lon_to_merc_x_lt a b hlt)

theorem merc_angle_bounds (lat : ℝ) (h1 : -89.9 ≤ lat) (h2 : lat ≤ 89.9) :
    0 < Real.pi / 4 + radians lat / 2 ∧
    Real.pi / 4 + radians lat / 2 < Real.pi / 2 := by
  have hp := Real.pi_pos
  have hu : radians lat / 2 = lat * Real.pi / 360 := by unfold radians; ring
  have hlow : -89.9 * Real.pi ≤ lat * Real.pi :=
    mul_le_mul_of_nonneg_right h1 hp.le
  have hhigh : lat * Real.pi ≤ 89.9 * Real.pi :=
    mul_le_mul_of_nonneg_right h2 hp.le
  rw [hu]
  constructor <;> nlinarith

theorem lat_to_merc_y_lt (a b : ℝ) (ha : -89.9 ≤ a) (hab : a < b)
    (hb : b ≤ 89.9) :
    GenerarMapa.lat_to_merc_y a < GenerarMapa.lat_to_merc_y b := by
  have hca : max (min a 89.9) (-89.9) = a := by
    rw [min_eq_left (by linarith), max_eq_left ha]
  have hcb : max (min b 89.9) (-89.9) = b := by
    rw [min_eq_left hb, max_eq_left (by linarith)]
  show GenerarMapa.RADIUS *
      Real.log (Real.tan (Real.pi / 4 + radians (max (min a 89.9) (-89.9)) / 2)) <
    GenerarMapa.RADIUS *
      Real.log (Real.tan (Real.pi / 4 + radians (max (min b 89.9) (-89.9)) / 2))
  rw [hca, hcb]
  obtain ⟨ha1, ha2⟩ := merc_angle_bounds a ha (by linarith)
  obtain ⟨hb1, hb2⟩ := merc_angle_bounds b (by linarith) hb
  have hr : radians a < radians b := by
    unfold radians
    have hc : (0 : ℝ) < Real.pi / 180 := by positivity
    exact mul_lt_mul_of_pos_right hab hc
  have hθ : Real.pi / 4 + radians a / 2 < Real.pi / 4 + radians b / 2 := by
    linarith
  have htan := Real.tan_lt_tan_of_lt_of_lt_pi_div_two (by linarith) hb2 hθ
  have hpos := Real.tan_pos_of_pos_of_lt_pi_div_two ha1 ha2
  exact mul_lt_mul_of_pos_left (Real.log_lt_log hpos htan) RADIUS_pos

theorem lat_to_merc_y_le (a b : ℝ) (ha : -89.9 ≤ a) (hab : a ≤ b)
    (hb : b ≤ 89.9) :
    GenerarMapa.lat_to_merc_y a ≤ GenerarMapa.lat_to_merc_y b := by
  rcases eq_or_lt_of_le hab with rfl | hlt
  · exact le_refl _
  · exact le_of_lt (lat_to_merc_y_lt a b ha hlt hb)

/-- C2 fails as stated: at the bbox's own max-longitude edge the scaled
    coordinate is exactly `width`, and `int()` does not clamp, so the pixel
    `px = width` falls outside `[0, width)`.  Concretely with bbox
    `lon ∈ [0, 180]`, `lat ∈ [0, 45]`, size 1200 × 800, the in-bbox point
    `(180, 10)` projects to `px = 1200`. -/
theorem c2_counterexample :
    ((0 : ℝ) < 180 ∧ (0 : ℝ) < 45) ∧
    ((0 : ℝ) ≤ 180 ∧ (180 : ℝ) ≤ 180 ∧ (0 : ℝ) ≤ 10 ∧ (10 : ℝ) ≤ 45) ∧
    (GenerarMapa.project_point_mercator 180 10
      { min_x := GenerarMapa.lon_to_merc_x 0,
        max_x := GenerarMapa.lon_to_merc_x 180,
        min_y := GenerarMapa.lat_to_merc_y 0,
        max_y := GenerarMapa.lat_to_merc_y 45,
        width := 1200, height := 800 }).1 = 1200 ∧
    ¬ ((GenerarMapa.project_point_mercator 180 10
      { min_x := GenerarMapa.lon_to_merc_x 0,
        max_x := GenerarMapa.lon_to_merc_x 180,
        min_y := GenerarMapa.lat_to_merc_y 0,
        max_y := GenerarMapa.lat_to_merc_y 45,
        width := 1200, height := 800 }).1 < 1200) := by
  have hmx0 : GenerarMapa.lon_to_merc_x 0 = 0 := by
    unfold GenerarMapa.lon_to_merc_x radians; ring
  have hmx180 : GenerarMapa.lon_to_merc_x 180 = Real.pi * GenerarMapa.RADIUS := by
    unfold GenerarMapa.lon_to_merc_x radians; ring
  have hne : Real.pi * GenerarMapa.RADIUS ≠ 0 :=
    ne_of_gt (mul_pos Real.pi_pos RADIUS_pos)
  have key : (GenerarMapa.project_point_mercator 180 10
      { min_x := GenerarMapa.lon_to_merc_x 0,
        max_x := GenerarMapa.lon_to_merc_x 180,
        min_y := GenerarMapa.lat_to_merc_y 0,
        max_y := GenerarMapa.lat_to_merc_y 45,
        width := 1200, height := 800 }).1 = 1200 := by
    show pyInt ((GenerarMapa.lon_to_merc_x 180 - GenerarMapa.lon_to_merc_x 0) /
      (GenerarMapa.lon_to_merc_x 180 - GenerarMapa.lon_to_merc_x 0) *
        ((1200 : ℤ) : ℝ)) = 1200
    rw [hmx0, hmx180, sub_zero, div_self hne, one_mul]
    norm_num [pyInt]
  refine ⟨⟨by norm_num, by norm_num⟩,
    ⟨by norm_num, le_refl _, by norm_num, by norm_num⟩, key, ?_⟩
  rw [key]
  exact lt_irrefl 1200

/-- C2 (amended): with the transform built from a bbox whose latitudes lie
    in the Mercator clamp domain, every point of the HALF-OPEN box
    `lon ∈ [lon_min, lon_max)`, `lat ∈ (lat_min, lat_max]` projects into
    `[0, width) × [0, height)`; at and beyond the max-longitude edge the
    unclamped linear extrapolation yields `px ≥ width`, outside the
    canvas. -/
theorem c2_projection_bounds (lat_min lat_max lon_min lon_max : ℝ)
    (w h : ℤ) (lon lat : ℝ)
    (hlat1 : -89.9 ≤ lat_min) (hlat2 : lat_min < lat_max) (hlat3 : lat_max ≤ 89.9)
    (hlon : lon_min < lon_max) (hw : 0 < w) (hh : 0 < h) :
    (lon_min ≤ lon → lon < lon_max → lat_min < lat → lat ≤ lat_max →
      0 ≤ (GenerarMapa.project_point_mercator lon lat
          { min_x := GenerarMapa.lon_to_merc_x lon_min,
            max_x := GenerarMapa.lon_to_merc_x lon_max,
            min_y := GenerarMapa.lat_to_merc_y lat_min,
            max_y := GenerarMapa.lat_to_merc_y lat_max,
            width := w, height := h }).1 ∧
      (GenerarMapa.project_point_mercator lon lat
          { min_x := GenerarMapa.lon_to_merc_x lon_min,
            max_x := GenerarMapa.lon_to_merc_x lon_max,
            min_y := GenerarMapa.lat_to_merc_y lat_min,
            max_y := GenerarMapa.lat_to_merc_y lat_max,
            width := w, height := h }).1 < w ∧
      0 ≤ (GenerarMapa.project_point_mercator lon lat
          { min_x := GenerarMapa.lon_to_merc_x lon_min,
            max_x := GenerarMapa.lon_to_merc_x lon_max,
            min_y := GenerarMapa.lat_to_merc_y lat_min,
            max_y := GenerarMapa.lat_to_merc_y lat_max,
            width := w, height := h }).2 ∧
      (GenerarMapa.project_point_mercator lon lat
          { min_x := GenerarMapa.lon_to_merc_x lon_min,
            max_x := GenerarMapa.lon_to_merc_x lon_max,
            min_y := GenerarMapa.lat_to_merc_y lat_min,
            max_y := GenerarMapa.lat_to_merc_y lat_max,
            width := w, height := h }).2 < h) ∧
    (lon_max ≤ lon →
      w ≤ (GenerarMapa.project_point_mercator lon lat
          { min_x := GenerarMapa.lon_to_merc_x lon_min,
            max_x := GenerarMapa.lon_to_merc_x lon_max,
            min_y := GenerarMapa.lat_to_merc_y lat_min,
            max_y := GenerarMapa.lat_to_merc_y lat_max,
            width := w, height := h }).1) := by
  have hD : (0 : ℝ) <
      GenerarMapa.lon_to_merc_x lon_max - GenerarMapa.lon_to_merc_x lon_min :=
    sub_pos.mpr (lon_to_merc_x_lt _ _ hlon)
  have hDy : (0 : ℝ) <
      GenerarMapa.lat_to_merc_y lat_max - GenerarMapa.lat_to_merc_y lat_min :=
    sub_pos.mpr (lat_to_merc_y_lt _ _ hlat1 hlat2 hlat3)
  have hwR : (0 : ℝ) < (w : ℝ) := by exact_mod_cast hw
  have hhR : (0 : ℝ) < (h : ℝ) := by exact_mod_cast hh
  constructor
  · intro h1 h2 h3 h4
    have hnum0 : 0 ≤ GenerarMapa.lon_to_merc_x lon - GenerarMapa.lon_to_merc_x lon_min :=
      sub_nonneg.mpr (lon_to_merc_x_le _ _ h1)
    have hnum1 : GenerarMapa.lon_to_merc_x lon - GenerarMapa.lon_to_merc_x lon_min <
        GenerarMapa.lon_to_merc_x lon_max - GenerarMapa.lon_to_merc_x lon_min := by
      have := lon_to_merc_x_lt _ _ h2
      linarith
    have hval0 : 0 ≤ (GenerarMapa.lon_to_merc_x lon - GenerarMapa.lon_to_merc_x lon_min) /
        (GenerarMapa.lon_to_merc_x lon_max - GenerarMapa.lon_to_merc_x lon_min) * (w : ℝ) :=
      mul_nonneg (div_nonneg hnum0 hD.le) hwR.le
    have hval1 : (GenerarMapa.lon_to_merc_x lon - GenerarMapa.lon_to_merc_x lon_min) /
        (GenerarMapa.lon_to_merc_x lon_max - GenerarMapa.lon_to_merc_x lon_min) * (w : ℝ) <
        (w : ℝ) := by
      have hr : (GenerarMapa.lon_to_merc_x lon - GenerarMapa.lon_to_merc_x lon_min) /
          (GenerarMapa.lon_to_merc_x lon_max - GenerarMapa.lon_to_merc_x lon_min) < 1 :=
        (div_lt_one hD).mpr hnum1
      calc (GenerarMapa.lon_to_merc_x lon - GenerarMapa.lon_to_merc_x lon_min) /
            (GenerarMapa.lon_to_merc_x lon_max - GenerarMapa.lon_to_merc_x lon_min) * (w : ℝ)
          < 1 * (w : ℝ) := mul_lt_mul_of_pos_right hr hwR
        _ = (w : ℝ) := one_mul _
    have hylat : -89.9 ≤ lat := by linarith
    have hnumy0 : 0 ≤ GenerarMapa.lat_to_merc_y lat_max - GenerarMapa.lat_to_merc_y lat := by
      have := lat_to_merc_y_le lat lat_max hylat h4 hlat3
      linarith
    have hnumy1 : GenerarMapa.lat_to_merc_y lat_max - GenerarMapa.lat_to_merc_y lat <
        GenerarMapa.lat_to_merc_y lat_max - GenerarMapa.lat_to_merc_y lat_min := by
      have := lat_to_merc_y_lt lat_min lat hlat1 h3 (by linarith)
      linarith
    have hvaly0 : 0 ≤ (GenerarMapa.lat_to_merc_y lat_max - GenerarMapa.lat_to_merc_y lat) /
        (GenerarMapa.lat_to_merc_y lat_max - GenerarMapa.lat_to_merc_y lat_min) * (h : ℝ) :=
      mul_nonneg (div_nonneg hnumy0 hDy.le) hhR.le
    have hvaly1 : (GenerarMapa.lat_to_merc_y lat_max - GenerarMapa.lat_to_merc_y lat) /
        (GenerarMapa.lat_to_merc_y lat_max - GenerarMapa.lat_to_merc_y lat_min) * (h : ℝ) <
        (h : ℝ) := by
      have hr : (GenerarMapa.lat_to_merc_y lat_max - GenerarMapa.lat_to_merc_y lat) /
          (GenerarMapa.lat_to_merc_y lat_max - GenerarMapa.lat_to_merc_y lat_min) < 1 :=
        (div_lt_one hDy).mpr hnumy1
      calc (GenerarMapa.lat_to_merc_y lat_max - GenerarMapa.lat_to_merc_y lat) /
            (GenerarMapa.lat_to_merc_y lat_max - GenerarMapa.lat_to_merc_y lat_min) * (h : ℝ)
          < 1 * (h : ℝ) := mul_lt_mul_of_pos_right hr hhR
        _ = (h : ℝ) := one_mul _
    refine ⟨?_, ?_, ?_, ?_⟩
    · show (0 : ℤ) ≤ pyInt _
      rw [pyInt, if_pos hval0]
      exact Int.le_floor.mpr (by exact_mod_cast hval0)
    · show pyInt _ < w
      rw [pyInt, if_pos hval0]
      exact Int.floor_lt.mpr (by exact_mod_cast hval1)
    · show (0 : ℤ) ≤ pyInt _
      rw [pyInt, if_pos hvaly0]
      exact Int.le_floor.mpr (by exact_mod_cast hvaly0)
    · show pyInt _ < h
      rw [pyInt, if_pos hvaly0]
      exact Int.floor_lt.mpr (by exact_mod_cast hvaly1)
  · intro h5
    have hnum : GenerarMapa.lon_to_merc_x lon_max - GenerarMapa.lon_to_merc_x lon_min ≤
        GenerarMapa.lon_to_merc_x lon - GenerarMapa.lon_to_merc_x lon_min := by
      have := lon_to_merc_x_le _ _ h5
      linarith
    have hr : 1 ≤ (GenerarMapa.lon_to_merc_x lon - GenerarMapa.lon_to_merc_x lon_min) /
        (GenerarMapa.lon_to_merc_x lon_max - GenerarMapa.lon_to_merc_x lon_min) :=
      (one_le_div hD).mpr hnum
    have hval : (w : ℝ) ≤ (GenerarMapa.lon_to_merc_x lon - GenerarMapa.lon_to_merc_x lon_min) /
        (GenerarMapa.lon_to_merc_x lon_max - GenerarMapa.lon_to_merc_x lon_min) * (w : ℝ) := by
      calc (w : ℝ) = 1 * (w : ℝ) := (one_mul _).symm
        _ ≤ _ := mul_le_mul_of_nonneg_right hr hwR.le
    have hval0 : (0 : ℝ) ≤ (GenerarMapa.lon_to_merc_x lon - GenerarMapa.lon_to_merc_x lon_min) /
        (GenerarMapa.lon_to_merc_x lon_max - GenerarMapa.lon_to_merc_x lon_min) * (w : ℝ) :=
      le_trans hwR.le hval
    show w ≤ pyInt _
    rw [pyInt, if_pos hval0]
    exact Int.le_floor.mpr (by exact_mod_cast hval)

/-- Concrete in-bbox instance of the amended projection bounds. -/
theorem c2_projection_bounds_witness :
    0 ≤ (GenerarMapa.project_point_mercator 0 45
        { min_x := GenerarMapa.lon_to_merc_x 0,
          max_x := GenerarMapa.lon_to_merc_x 90,
          min_y := GenerarMapa.lat_to_merc_y 0,
          max_y := GenerarMapa.lat_to_merc_y 45,
          width := 100, height := 100 }).1 ∧
    (GenerarMapa.project_point_mercator 0 45
        { min_x := GenerarMapa.lon_to_merc_x 0,
          max_x := GenerarMapa.lon_to_merc_x 90,
          min_y := GenerarMapa.lat_to_merc_y 0,
          max_y := GenerarMapa.lat_to_merc_y 45,
          width := 100, height := 100 }).1 < 100 ∧
    0 ≤ (GenerarMapa.project_point_mercator 0 45
        { min_x := GenerarMapa.lon_to_merc_x 0,
          max_x := GenerarMapa.lon_to_merc_x 90,
          min_y := GenerarMapa.lat_to_merc_y 0,
          max_y := GenerarMapa.lat_to_merc_y 45,
          width := 100, height := 100 }).2 ∧
    (GenerarMapa.project_point_mercator 0 45
        { min_x := GenerarMapa.lon_to_merc_x 0,
          max_x := GenerarMapa.lon_to_merc_x 90,
          min_y := GenerarMapa.lat_to_merc_y 0,
          max_y := GenerarMapa.lat_to_merc_y 45,
          width := 100, height := 100 }).2 < 100 :=
  (c2_projection_bounds 0 45 0 90 100 100 0 45 (by norm_num) (by norm_num)
      (by norm_num) (by norm_num) (by norm_num) (by norm_num)).1
    (by norm_num) (by norm_num) (by norm_num) (by norm_num)

theorem tan_half_identity (φ : ℝ) (h1 : -(Real.pi / 2) < φ)
    (h2 : φ < Real.pi / 2) :
    Real.tan φ + 1 / Real.cos φ = Real.tan (Real.pi / 4 + φ / 2) := by
  have hp := Real.pi_pos
  have hcφ : 0 < Real.cos φ := Real.cos_pos_of_mem_Ioo ⟨h1, h2⟩
  have hc2 : 0 < Real.cos (φ / 2) :=
    Real.cos_pos_of_mem_Ioo ⟨by linarith, by linarith⟩
  have hs2 : 0 < Real.sqrt 2 := by positivity
  have hcos_add : Real.cos (φ / 2 + Real.pi / 4) =
      Real.cos (φ / 2) * (Real.sqrt 2 / 2) - Real.sin (φ / 2) * (Real.sqrt 2 / 2) := by
    rw [Real.cos_add, Real.cos_pi_div_four, Real.sin_pi_div_four]
  have hsin_add : Real.sin (φ / 2 + Real.pi / 4) =
      Real.sin (φ / 2) * (Real.sqrt 2 / 2) + Real.cos (φ / 2) * (Real.sqrt 2 / 2) := by
    rw [Real.sin_add, Real.cos_pi_div_four, Real.sin_pi_div_four]
  have hcpos : 0 < Real.cos (φ / 2 + Real.pi / 4) :=
    Real.cos_pos_of_mem_Ioo ⟨by linarith, by linarith⟩
  have hspos : 0 < Real.sin (φ / 2 + Real.pi / 4) :=
    Real.sin_pos_of_pos_of_lt_pi (by linarith) (by linarith)
  have hdiff : 0 < Real.cos (φ / 2) - Real.sin (φ / 2) := by
    nlinarith [hcos_add, hcpos, hs2]
  have hsum : 0 < Real.cos (φ / 2) + Real.sin (φ / 2) := by
    nlinarith [hsin_add, hspos, hs2]
  have hrhs : Real.tan (Real.pi / 4 + φ / 2) =
      (Real.cos (φ / 2) + Real.sin (φ / 2)) /
        (Real.cos (φ / 2) - Real.sin (φ / 2)) := by
    rw [add_comm (Real.pi / 4) (φ / 2), Real.tan_eq_sin_div_cos, hsin_add, hcos_add]
    have hnum : Real.sin (φ / 2) * (Real.sqrt 2 / 2) +
        Real.cos (φ / 2) * (Real.sqrt 2 / 2) =
        Real.sqrt 2 / 2 * (Real.cos (φ / 2) + Real.sin (φ / 2)) := by ring
    have hden : Real.cos (φ / 2) * (Real.sqrt 2 / 2) -
        Real.sin (φ / 2) * (Real.sqrt 2 / 2) =
        Real.sqrt 2 / 2 * (Real.cos (φ / 2) - Real.sin (φ / 2)) := by ring
    rw [hnum, hden, mul_div_mul_left _ _ (by positivity : Real.sqrt 2 / 2 ≠ 0)]
  have hφ2 : φ = 2 * (φ / 2) := by ring
  have hsin : Real.sin φ = 2 * Real.sin (φ / 2) * Real.cos (φ / 2) := by
    conv_lhs => rw [hφ2]
    exact Real.sin_two_mul _
  have hcos : Real.cos φ = Real.cos (φ / 2) ^ 2 - Real.sin (φ / 2) ^ 2 := by
    conv_lhs => rw [hφ2]
    exact Real.cos_two_mul' _
  have hpyth : Real.sin (φ / 2) ^ 2 + Real.cos (φ / 2) ^ 2 = 1 :=
    Real.sin_sq_add_cos_sq _
  have hcosne : Real.cos (φ / 2) ^ 2 - Real.sin (φ / 2) ^ 2 ≠ 0 := by
    rw [← hcos]; exact ne_of_gt hcφ
  have hlhs : Real.tan φ + 1 / Real.cos φ =
      (Real.cos (φ / 2) + Real.sin (φ / 2)) /
        (Real.cos (φ / 2) - Real.sin (φ / 2)) := by
    rw [Real.tan_eq_sin_div_cos, div_add_div_same, hsin, hcos,
      div_eq_div_iff hcosne (ne_of_gt hdiff)]
    linear_combination
      (Real.sin (φ / 2) - Real.cos (φ / 2)) * hpyth
  rw [hlhs, hrhs]

theorem radians_lt_radians (a b : ℝ) (h : a < b) : radians a < radians b := by
  unfold radians
  exact mul_lt_mul_of_pos_right h (by positivity)

theorem radians_mem_Ioo (a : ℝ) (h1 : -90 < a) (h2 : a < 90) :
    -(Real.pi / 2) < radians a ∧ radians a < Real.pi / 2 := by
  have hp := Real.pi_pos
  have hlow := radians_lt_radians (-90) a h1
  have hhigh := radians_lt_radians a 90 h2
  have h90 : radians 90 = Real.pi / 2 := by unfold radians; ring
  have hm90 : radians (-90) = -(Real.pi / 2) := by unfold radians; ring
  rw [h90] at hhigh
  rw [hm90] at hlow
  exact ⟨hlow, hhigh⟩

theorem tile_y_inner_pos (a : ℝ) (h1 : -90 < a) (h2 : a < 90) :
    0 < Real.tan (radians a) + 1 / Real.cos (radians a) := by
  obtain ⟨hr1, hr2⟩ := radians_mem_Ioo a h1 h2
  have hp := Real.pi_pos
  rw [tan_half_identity (radians a) hr1 hr2]
  exact Real.tan_pos_of_pos_of_lt_pi_div_two (by linarith) (by linarith)

theorem tile_y_inner_lt (a b : ℝ) (h1 : -90 < a) (hab : a < b) (h2 : b < 90) :
    Real.tan (radians a) + 1 / Real.cos (radians a) <
      Real.tan (radians b) + 1 / Real.cos (radians b) := by
  obtain ⟨hra1, hra2⟩ := radians_mem_Ioo a h1 (by linarith)
  obtain ⟨hrb1, hrb2⟩ := radians_mem_Ioo b (by linarith) h2
  have hp := Real.pi_pos
  rw [tan_half_identity (radians a) hra1 hra2,
    tan_half_identity (radians b) hrb1 hrb2]
  exact Real.tan_lt_tan_of_lt_of_lt_pi_div_two (by linarith) (by linarith)
    (by have := radians_lt_radians a b hab; linarith)

theorem xtile_lt (lat lat' a b : ℝ) (zoom : ℕ) (h : a < b) :
    (GenerarMapa.lonlat_to_tile a lat zoom).1 <
      (GenerarMapa.lonlat_to_tile b lat' zoom).1 := by
  show (a + 180) / 360 * ((2 : ℝ) ^ zoom) < (b + 180) / 360 * ((2 : ℝ) ^ zoom)
  have hn : (0 : ℝ) < (2 : ℝ) ^ zoom := by positivity
  exact mul_lt_mul_of_pos_right
    ((div_lt_div_right (by norm_num)).mpr (by linarith)) hn

theorem ytile_lt (lon lon' a b : ℝ) (zoom : ℕ) (h1 : -90 < a) (hab : a < b)
    (h2 : b < 90) :
    (GenerarMapa.lonlat_to_tile lon' b zoom).2 <
      (GenerarMapa.lonlat_to_tile lon a zoom).2 := by
  show (1 - Real.log (Real.tan (radians b) + 1 / Real.cos (radians b)) / Real.pi) /
      2 * ((2 : ℝ) ^ zoom) <
    (1 - Real.log (Real.tan (radians a) + 1 / Real.cos (radians a)) / Real.pi) /
      2 * ((2 : ℝ) ^ zoom)
  have hn : (0 : ℝ) < (2 : ℝ) ^ zoom := by positivity
  have hp := Real.pi_pos
  have hlog := Real.log_lt_log (tile_y_inner_pos a h1 (by linarith))
    (tile_y_inner_lt a b h1 hab h2)
  have hdiv : Real.log (Real.tan (radians a) + 1 / Real.cos (radians a)) / Real.pi <
      Real.log (Real.tan (radians b) + 1 / Real.cos (radians b)) / Real.pi :=
    (div_lt_div_right hp).mpr hlog
  exact mul_lt_mul_of_pos_right (by linarith) hn

theorem floor_px_div_256 (x : ℝ) : ⌊x * 256 / 256⌋ = ⌊x⌋ := by
  rw [mul_div_cancel_right₀ x (by norm_num : (256 : ℝ) ≠ 0)]

theorem mem_int_range (a b p : ℤ) : p ∈ int_range a b ↔ a ≤ p ∧ p ≤ b := by
  unfold int_range
  simp only [List.mem_map, List.mem_range]
  constructor
  · rintro ⟨k, hk, rfl⟩
    omega
  · rintro ⟨hp1, hp2⟩
    exact ⟨(p - a).toNat, by omega, by omega⟩

theorem int_range_nodup (a b : ℤ) : (int_range a b).Nodup := by
  have hinj : Function.Injective (fun k : ℕ => a + (k : ℤ)) := by
    intro x y hxy
    simp only at hxy
    omega
  exact List.Nodup.map hinj (List.nodup_range _)

theorem mem_rect (a b c d : ℤ) (p : ℤ × ℤ) :
    p ∈ (int_range a b).flatMap
        (fun tx => (int_range c d).map (fun ty => (tx, ty))) ↔
      (a ≤ p.1 ∧ p.1 ≤ b) ∧ (c ≤ p.2 ∧ p.2 ≤ d) := by
  simp only [List.mem_flatMap, List.mem_map]
  constructor
  · rintro ⟨tx, htx, ty, hty, rfl⟩
    exact ⟨(mem_int_range a b tx).mp htx, (mem_int_range c d ty).mp hty⟩
  · rintro ⟨h1, h2⟩
    exact ⟨p.1, (mem_int_range a b p.1).mpr h1, p.2,
      (mem_int_range c d p.2).mpr h2, rfl⟩

theorem rect_nodup (a b c d : ℤ) :
    ((int_range a b).flatMap
      (fun tx => (int_range c d).map (fun ty => (tx, ty)))).Nodup := by
  have heq : (int_range a b).flatMap
      (fun tx => (int_range c d).map (fun ty => (tx, ty))) =
      int_range a b ×ˢ int_range c d := rfl
  rw [heq]
  exact List.Nodup.product (int_range_nodup a b) (int_range_nodup c d)

theorem floor_pixel_x (lon lat : ℝ) (zoom : ℕ) :
    ⌊(GenerarMapa.lonlat_to_pixel lon lat zoom).1 / 256⌋ =
      ⌊(GenerarMapa.lonlat_to_tile lon lat zoom).1⌋ :=
  floor_px_div_256 _

theorem floor_pixel_y (lon lat : ℝ) (zoom : ℕ) :
    ⌊(GenerarMapa.lonlat_to_pixel lon lat zoom).2 / 256⌋ =
      ⌊(GenerarMapa.lonlat_to_tile lon lat zoom).2⌋ :=
  floor_px_div_256 _

/-- C5: the tile-mosaic path fetches exactly the minimal rectangular set of
    tile indices covering the bbox's four corner tile indices — the fetch
    list enumerates `[tile_x_min..tile_x_max] × [tile_y_min..tile_y_max]` in
    the nested-loop order (x outer, y inner), one fetch per index — and the
    cropped, resampled raster has exactly the requested `width × height`. -/
theorem c5_tile_mosaic (tileResp : ℤ × ℤ → Except Unit PILImage)
    (lat_min lat_max lon_min lon_max : ℝ) (zoom : ℕ) (w h : ℤ)
    (hl1 : -90 < lat_min) (hl2 : lat_min < lat_max) (hl3 : lat_max < 90)
    (hlon : lon_min < lon_max) :
    (GenerarMapa.build_base_map_tiles tileResp lat_min lat_max lon_min lon_max
        zoom w h).img = (⟨w, h⟩ : PILImage) ∧
    (GenerarMapa.build_base_map_tiles tileResp lat_min lat_max lon_min lon_max
        zoom w h).fetched =
      (int_range ⌊(GenerarMapa.lonlat_to_tile lon_min lat_min zoom).1⌋
          ⌊(GenerarMapa.lonlat_to_tile lon_max lat_max zoom).1⌋).flatMap
        (fun tx =>
          (int_range ⌊(GenerarMapa.lonlat_to_tile lon_max lat_max zoom).2⌋
            ⌊(GenerarMapa.lonlat_to_tile lon_min lat_min zoom).2⌋).map
            (fun ty => (tx, ty))) ∧
    (∀ p : ℤ × ℤ,
      p ∈ (GenerarMapa.build_base_map_tiles tileResp lat_min lat_max lon_min
          lon_max zoom w h).fetched ↔
        (min (min ⌊(GenerarMapa.lonlat_to_tile lon_min lat_min zoom).1⌋
              ⌊(GenerarMapa.lonlat_to_tile lon_min lat_max zoom).1⌋)
            (min ⌊(GenerarMapa.lonlat_to_tile lon_max lat_min zoom).1⌋
              ⌊(GenerarMapa.lonlat_to_tile lon_max lat_max zoom).1⌋) ≤ p.1 ∧
          p.1 ≤ max (max ⌊(GenerarMapa.lonlat_to_tile lon_min lat_min zoom).1⌋
              ⌊(GenerarMapa.lonlat_to_tile lon_min lat_max zoom).1⌋)
            (max ⌊(GenerarMapa.lonlat_to_tile lon_max lat_min zoom).1⌋
              ⌊(GenerarMapa.lonlat_to_tile lon_max lat_max zoom).1⌋)) ∧
        (min (min ⌊(GenerarMapa.lonlat_to_tile lon_min lat_min zoom).2⌋
              ⌊(GenerarMapa.lonlat_to_tile lon_min lat_max zoom).2⌋)
            (min ⌊(GenerarMapa.lonlat_to_tile lon_max lat_min zoom).2⌋
              ⌊(GenerarMapa.lonlat_to_tile lon_max lat_max zoom).2⌋) ≤ p.2 ∧
          p.2 ≤ max (max ⌊(GenerarMapa.lonlat_to_tile lon_min lat_min zoom).2⌋
              ⌊(GenerarMapa.lonlat_to_tile lon_min lat_max zoom).2⌋)
            (max ⌊(GenerarMapa.lonlat_to_tile lon_max lat_min zoom).2⌋
              ⌊(GenerarMapa.lonlat_to_tile lon_max lat_max zoom).2⌋))) ∧
    (GenerarMapa.build_base_map_tiles tileResp lat_min lat_max lon_min lon_max
        zoom w h).fetched.Nodup := by
  have hfetched : (GenerarMapa.build_base_map_tiles tileResp lat_min lat_max
      lon_min lon_max zoom w h).fetched =
      (int_range ⌊(GenerarMapa.lonlat_to_tile lon_min lat_min zoom).1⌋
          ⌊(GenerarMapa.lonlat_to_tile lon_max lat_max zoom).1⌋).flatMap
        (fun tx =>
          (int_range ⌊(GenerarMapa.lonlat_to_tile lon_max lat_max zoom).2⌋
            ⌊(GenerarMapa.lonlat_to_tile lon_min lat_min zoom).2⌋).map
            (fun ty => (tx, ty))) := by
    show (int_range ⌊(GenerarMapa.lonlat_to_pixel lon_min lat_min zoom).1 / 256⌋
        ⌊(GenerarMapa.lonlat_to_pixel lon_max lat_max zoom).1 / 256⌋).flatMap
      (fun tx =>
        (int_range ⌊(GenerarMapa.lonlat_to_pixel lon_max lat_max zoom).2 / 256⌋
          ⌊(GenerarMapa.lonlat_to_pixel lon_min lat_min zoom).2 / 256⌋).map
          (fun ty => (tx, ty))) = _
    rw [floor_pixel_x, floor_pixel_x, floor_pixel_y, floor_pixel_y]
  -- corner tile-index abbreviations and their lat-independence / ordering
  have ex1 : ⌊(GenerarMapa.lonlat_to_tile lon_min lat_max zoom).1⌋ =
      ⌊(GenerarMapa.lonlat_to_tile lon_min lat_min zoom).1⌋ := rfl
  have ex2 : ⌊(GenerarMapa.lonlat_to_tile lon_max lat_min zoom).1⌋ =
      ⌊(GenerarMapa.lonlat_to_tile lon_max lat_max zoom).1⌋ := rfl
  have ey1 : ⌊(GenerarMapa.lonlat_to_tile lon_min lat_min zoom).2⌋ =
      ⌊(GenerarMapa.lonlat_to_tile lon_max lat_min zoom).2⌋ := rfl
  have ey2 : ⌊(GenerarMapa.lonlat_to_tile lon_min lat_max zoom).2⌋ =
      ⌊(GenerarMapa.lonlat_to_tile lon_max lat_max zoom).2⌋ := rfl
  have hcx : ⌊(GenerarMapa.lonlat_to_tile lon_min lat_min zoom).1⌋ ≤
      ⌊(GenerarMapa.lonlat_to_tile lon_max lat_max zoom).1⌋ :=
    Int.floor_le_floor (le_of_lt (xtile_lt lat_min lat_max lon_min lon_max zoom hlon))
  have hcy2 : ⌊(GenerarMapa.lonlat_to_tile lon_max lat_max zoom).2⌋ ≤
      ⌊(GenerarMapa.lonlat_to_tile lon_max lat_min zoom).2⌋ :=
    Int.floor_le_floor (le_of_lt (ytile_lt lon_max lon_max lat_min lat_max zoom
      hl1 hl2 hl3))
  refine ⟨rfl, hfetched, ?_, ?_⟩
  · intro p
    rw [hfetched, mem_rect, ex1, ex2, ey1, ey2]
    rw [min_self, min_self, min_self, max_self, max_self, max_self]
    rw [min_eq_left hcx, max_eq_right hcx, min_eq_right hcy2, max_eq_left hcy2]
  · rw [hfetched]
    exact rect_nodup _ _ _ _

/-- Concrete instance of the tile-mosaic property at the program's own bbox
    and zoom, with every tile fetch failing (placeholders do not change the
    fetch set or the output size). -/
theorem c5_tile_mosaic_witness :
    (GenerarMapa.build_base_map_tiles (fun _ => .error ()) 38.5 40.2 1.0 4.5
        8 1200 800).img = (⟨1200, 800⟩ : PILImage) ∧
    (GenerarMapa.build_base_map_tiles (fun _ => .error ()) 38.5 40.2 1.0 4.5
        8 1200 800).fetched.Nodup :=
  have hc := c5_tile_mosaic (fun _ => .error ()) 38.5 40.2 1.0 4.5 8 1200 800
    (by norm_num) (by norm_num) (by norm_num) (by norm_num)
  ⟨hc.1, hc.2.2.2⟩

end Meteo
